import Mathlib

/-!
Verification of the QR_UI session-manager and live-scan-pipeline subsystems.

The definitions below are shallow embeddings of the TypeScript source:

* QrScanner section: src/components/qr/QrScannerWidget.tsx
  (isInRoi, the decode callback with ROI filter and cooldown dedup, stop).
* QrClientLS section: the fetchWithAuth / refreshAuthToken pair in
  src/unnamed/part_004 (the localStorage-based lib/api/qrClient.ts), which
  carries the isRefreshing single-flight guard and the auth-endpoint
  exemption.
* QrClientSrc section: the fetchWithAuth in src/lib/api/qrClient.ts
  (client-side branch), which has neither the guard nor the exemption.
* SingleFlight section: an event-loop interleaving model of concurrent
  401 handlers for both fetchWithAuth variants.
* AuthCtx section: src/contexts/AuthContext.tsx (scheduleTokenRefresh,
  refreshToken, logout) over the AuthService of src/unnamed/part_004
  (src/services/authService.ts), the only AuthService version that
  defines refreshAccessToken and getRefreshToken as used by AuthContext.
* ScanPage section: the recent-scans update in
  src/app/dashboard/scan/page.tsx (handleValidate and onFileSelected).

Machine numbers are modelled as Int (millisecond timestamps) and Rat
(pixel coordinates); both are exact in the source ranges of interest.
-/

namespace QrScanner

/-- One entry of the getResultPoints array of a ZXing decode result:
a detection point with pixel coordinates getX and getY. -/
structure ResultPoint where
  x : ℚ
  y : ℚ
deriving DecidableEq, Repr

/-- Arithmetic mean of the x coordinates, as computed at
QrScannerWidget.tsx line 160: pts.reduce getX sum divided by pts.length. -/
def centroidX (pts : List ResultPoint) : ℚ :=
  (pts.map ResultPoint.x).sum / (pts.length : ℚ)

/-- Arithmetic mean of the y coordinates, QrScannerWidget.tsx line 161. -/
def centroidY (pts : List ResultPoint) : ℚ :=
  (pts.map ResultPoint.y).sum / (pts.length : ℚ)

/-- Embedding of isInRoi (QrScannerWidget.tsx lines 46-60), applied to a
candidate centroid. vw and vh are the resolved video dimensions
(videoWidth orElse clientWidth orElse 0). When either dimension is 0 the
source returns a predicate that accepts everything; otherwise the
centered square of side min vw vh * roiFraction is tested with inclusive
comparisons. -/
def isInRoi (roiFraction vw vh cx cy : ℚ) : Bool :=
  if vw = 0 ∨ vh = 0 then
    true
  else
    let size := min vw vh * roiFraction
    let x0 := (vw - size) / 2
    let y0 := (vh - size) / 2
    let x1 := x0 + size
    let y1 := y0 + size
    decide (x0 ≤ cx ∧ cx ≤ x1 ∧ y0 ≤ cy ∧ cy ≤ y1)

/-- Deduplication state of the widget: lastCodeRef, lastScanAtRef,
cooldownMsRef, roiFractionRef (QrScannerWidget.tsx lines 38-44).
Timestamps are milliseconds as returned by Date.now. -/
structure ScannerState where
  lastCode : Option String
  lastScanAt : ℤ
  cooldownMs : ℤ
  roiFraction : ℚ
deriving DecidableEq, Repr

/-- Initial refs of the widget: lastCodeRef null, lastScanAtRef 0,
cooldownMsRef 800, roiFractionRef 0.6. -/
def initialScanner : ScannerState :=
  { lastCode := none, lastScanAt := 0, cooldownMs := 800, roiFraction := 3 / 5 }

/-- A decode result delivered to the decode callback: the decoded text and
the optional detection points (getResultPoints may be absent). -/
structure DecodeResult where
  text : String
  points : Option (List ResultPoint)

/-- ROI stage of the decode callback (QrScannerWidget.tsx lines 157-166):
the ROI filter runs only when the result carries a nonempty points array
(the source guard is pts and pts.length); otherwise the stage passes. -/
def roiPass (roiFraction vw vh : ℚ) (r : DecodeResult) : Bool :=
  match r.points with
  | some pts =>
    if pts.length = 0 then true
    else isInRoi roiFraction vw vh (centroidX pts) (centroidY pts)
  | none => true

/-- Embedding of the decode callback body for a successful decode
(QrScannerWidget.tsx lines 156-182): ROI filter, then the dedup guard
lastCode equals text or now minus lastScanAt less than cooldownMs, then
acceptance updating lastCode and lastScanAt and invoking onDecoded.
Returns the updated refs and whether onDecoded was invoked. -/
def decodeCallback (vw vh : ℚ) (now : ℤ) (r : DecodeResult) (s : ScannerState) :
    ScannerState × Bool :=
  if roiPass s.roiFraction vw vh r = false then
    (s, false)
  else if s.lastCode = some r.text ∨ now - s.lastScanAt < s.cooldownMs then
    (s, false)
  else
    ({ s with lastCode := some r.text, lastScanAt := now }, true)

/-- A MediaStreamTrack, reduced to the one observable that matters here:
whether stop was called on it. -/
structure Track where
  stopped : Bool
deriving DecidableEq, Repr

/-- State touched by the stop callback of QrScannerWidget.tsx lines 72-93:
the scanner controls ref, the video srcObject attachment, the tracks of
the acquired stream, and the torch and zoom state. tracks keeps the track
objects of the stream the widget acquired; srcAttached records whether
videoRef.srcObject still references that stream. -/
structure WidgetState where
  controlsActive : Bool
  srcAttached : Bool
  tracks : List Track
  torchOn : Bool
  torchSupported : Bool
  zoom : Option ℚ
  zoomSupported : Bool
deriving DecidableEq, Repr

/-- Widget state before start has ever run: controlsRef null, no stream
attached, no tracks acquired. -/
def initialWidget : WidgetState :=
  { controlsActive := false, srcAttached := false, tracks := []
    torchOn := false, torchSupported := false
    zoom := none, zoomSupported := false }

/-- Embedding of stop (QrScannerWidget.tsx lines 72-93): controls stop and
null the ref; read the stream from videoRef.srcObject and stop every track
(a no-op when the video is already detached, since srcObject is null
then); detach the video; reset torch and zoom state. Every step of the
source is wrapped in try-catch or optional chaining, so the operation is
total. -/
def stop (s : WidgetState) : WidgetState :=
  { controlsActive := false
    srcAttached := false
    tracks := if s.srcAttached then s.tracks.map (fun _ => { stopped := true }) else s.tracks
    torchOn := false
    torchSupported := false
    zoom := none
    zoomSupported := false }

/-- Reachability invariant of the widget: whenever the video is detached,
every acquired track has already been stopped. It holds in the initial
state and start only attaches freshly acquired tracks. -/
def DetachedStopped (s : WidgetState) : Prop :=
  s.srcAttached = false → ∀ t ∈ s.tracks, t.stopped = true

end QrScanner

/-- Bool test for the substring check url.includes of part_004 line 49,
specialised to the pattern auth segment. startsWithChars p l decides
whether p is an initial segment of l. -/
def startsWithChars : List Char → List Char → Bool
  | [], _ => true
  | _ :: _, [] => false
  | p :: ps, c :: cs => p = c && startsWithChars ps cs

/-- hasChars p l decides whether p occurs contiguously anywhere in l. -/
def hasChars (p : List Char) : List Char → Bool
  | [] => startsWithChars p []
  | c :: cs => startsWithChars p (c :: cs) || hasChars p cs

/-- Embedding of the isAuthRequest test of part_004 fetchWithAuth line 49:
url.includes of the string slash auth slash. -/
def isAuthUrl (url : String) : Bool :=
  hasChars "/auth/".toList url.toList

namespace QrClientLS

/-- Outcome of the underlying authService.refreshToken network call as
observed by refreshAuthToken (part_004 lines 31-44): the response carries
an accessToken, the response resolves without one, or the call throws. -/
inductive RefreshOutcome where
  | token (t : String)
  | noToken
  | error
deriving DecidableEq, Repr

/-- Sequential embedding of refreshAuthToken (part_004 lines 13-45) for a
caller that finds isRefreshing false: on a token, localStorage is updated
and the token returned; on a response without a token, null is returned
and storage is untouched; on an exception, the stored accessToken is
removed and null returned. Returns the resolved value and the stored
accessToken afterwards. -/
def refreshAuthToken (o : RefreshOutcome) (stored : Option String) :
    Option String × Option String :=
  match o with
  | .token t => (some t, some t)
  | .noToken => (none, stored)
  | .error => (none, none)

/-- Network environment of one fetchWithAuth call: the status of the first
issue of the request, the refresh outcome consulted if a refresh happens,
and the status of the retried request if a retry happens. -/
structure Env where
  firstStatus : ℕ
  refreshOutcome : RefreshOutcome
  retryStatus : ℕ
deriving DecidableEq, Repr

/-- Result of a fetchWithAuth call: a parsed 2xx body, a thrown error
carrying a non-2xx status (part_004 lines 117-119), or the thrown
session-expired error of lines 98 and 106. -/
inductive FetchResult where
  | success (status : ℕ)
  | apiError (status : ℕ)
  | sessionExpired
deriving DecidableEq, Repr

/-- Observable trace of one fetchWithAuth call: its result, the
Authorization bearer value of each issue of the original request in
order, how many refresh network calls it triggered, the stored
accessToken afterwards, and whether it navigated to the login page. -/
structure Trace where
  result : FetchResult
  attempts : List (Option String)
  refreshCalls : ℕ
  storedAfter : Option String
  redirected : Bool
deriving DecidableEq, Repr

/-- res.ok of the fetch API: status in the 2xx range. -/
def statusOk (st : ℕ) : Bool :=
  decide (200 ≤ st ∧ st < 300)

/-- Shared tail of fetchWithAuth (part_004 lines 110-120): parse the body
and either return it or throw an error carrying the status. -/
def finish (st : ℕ) : FetchResult :=
  if statusOk st then .success st else .apiError st

/-- Embedding of fetchWithAuth in part_004 (lines 47-121), sequential
single-caller case. The bearer token is attached only when the target is
not an auth endpoint; a 401 on a non-auth request triggers refreshAuthToken
and, on a fresh token, exactly one retry; a 401 on the retry or a null
refresh clears the stored accessToken, redirects to login, and throws the
session-expired error. -/
def fetchWithAuth (url : String) (stored : Option String) (env : Env) : Trace :=
  let isAuthRequest := isAuthUrl url
  let token : Option String := if isAuthRequest then none else stored
  if env.firstStatus = 401 ∧ isAuthRequest = false then
    let refreshed := refreshAuthToken env.refreshOutcome stored
    match refreshed.1 with
    | some t =>
      if env.retryStatus = 401 then
        { result := .sessionExpired, attempts := [token, some t]
          refreshCalls := 1, storedAfter := none, redirected := true }
      else
        { result := finish env.retryStatus, attempts := [token, some t]
          refreshCalls := 1, storedAfter := refreshed.2, redirected := false }
    | none =>
      { result := .sessionExpired, attempts := [token]
        refreshCalls := 1, storedAfter := none, redirected := true }
  else
    { result := finish env.firstStatus, attempts := [token]
      refreshCalls := 0, storedAfter := stored, redirected := false }

end QrClientLS

namespace QrClientSrc

/-- Network environment of one fetchWithAuth call in src/lib/api/qrClient.ts
(client-side branch): status of the first issue, outcome of the refresh
fetch (some token when the refresh response is ok and carries accessToken,
none for every failure mode of lines 122-139), and the retry status. -/
structure Env where
  firstStatus : ℕ
  refreshOutcome : Option String
  retryStatus : ℕ
deriving DecidableEq, Repr

/-- Embedding of fetchWithAuth in src/lib/api/qrClient.ts (lines 7-196),
client-side branch. The url is not inspected: the bearer header is
attached whenever a token is stored, and every 401 first response enters
the refresh path (lines 100-167). On a refreshed token the request is
retried once and the retry response flows into the generic status
handling of lines 170-192 with no further 401 treatment; on a refresh
failure the stored token is removed, the browser is redirected, and the
session-expired error is thrown. -/
def fetchWithAuth (_url : String) (stored : Option String) (env : Env) :
    QrClientLS.Trace :=
  if env.firstStatus = 401 then
    match env.refreshOutcome with
    | some t =>
      { result := QrClientLS.finish env.retryStatus, attempts := [stored, some t]
        refreshCalls := 1, storedAfter := some t, redirected := false }
    | none =>
      { result := .sessionExpired, attempts := [stored]
        refreshCalls := 1, storedAfter := none, redirected := true }
  else
    { result := QrClientLS.finish env.firstStatus, attempts := [stored]
      refreshCalls := 0, storedAfter := stored, redirected := false }

end QrClientSrc

namespace SingleFlight

/-- Phase of one fetchWithAuth caller inside its 401 handler. got401: the
caller has observed a 401 and its continuation is queued but has not yet
run the synchronous head of refreshAuthToken. owner: the caller found
isRefreshing false, set it, and its authService.refreshToken network call
is in flight. waiting: the caller found isRefreshing true and is polling
(part_004 lines 15-27). done r: the promise returned by refreshAuthToken
resolved with r for this caller. -/
inductive CallerPhase where
  | got401
  | owner
  | waiting
  | done (result : Option String)
deriving DecidableEq, Repr

/-- Value with which refreshAuthToken resolves for the caller that owns
the flight, per part_004 lines 31-44. -/
def ownerResult (o : QrClientLS.RefreshOutcome) : Option String :=
  match o with
  | .token t => some t
  | .noToken => none
  | .error => none

/-- Shared state of the part_004 module plus the per-caller phases.
isRefreshing is the module-level guard of line 10, stored the localStorage
accessToken, inFlight the number of refresh network calls currently
outstanding, total the number ever issued. -/
structure SFState (n : ℕ) where
  isRefreshing : Bool
  stored : Option String
  callers : Fin n → CallerPhase
  inFlight : ℕ
  total : ℕ

/-- Scenario start: all n callers have received their 401 and no refresh
is in flight. -/
def initSF (n : ℕ) (s0 : Option String) : SFState n :=
  { isRefreshing := false, stored := s0, callers := fun _ => .got401
    inFlight := 0, total := 0 }

/-- Event-loop events. enter i: caller i runs the synchronous head of
refreshAuthToken (part_004 lines 14-29): with isRefreshing true it starts
polling, otherwise it sets isRefreshing and issues the refresh network
call. complete i o: the network call of owner i resolves with outcome o;
this event covers the whole microtask chain of the owner up to storage
(setItem on a token; removeItem via the catch of line 40 or the else
branch of fetchWithAuth line 102 otherwise) and the finally of line 43,
all of which run before any waiting poll because the polls are setTimeout
macrotasks. observe i: a polling caller runs a checkRefresh iteration that
finds isRefreshing false and resolves with the stored accessToken
(line 20). retry401 i: the post-refresh retry of the original request of
a caller whose refreshAuthToken promise resolved with a token (part_004
lines 85-98) comes back 401, and its handler removes the stored
accessToken (line 94) before redirecting and throwing; the retry is a
separate network await, so this event can interleave with the polls of
waiting callers. A retry that comes back non-401 mutates no shared state
and is omitted as a no-op, and the removeItem of a caller that resolved
null (line 102) clears a storage slot that is already empty, also a
no-op. Events whose caller is not in the required phase are no-ops. -/
inductive Action (n : ℕ) where
  | enter (i : Fin n)
  | complete (i : Fin n) (o : QrClientLS.RefreshOutcome)
  | observe (i : Fin n)
  | retry401 (i : Fin n)

/-- Whether an event is an enter event. -/
def Action.isEnter {n : ℕ} : Action n → Bool
  | .enter _ => true
  | _ => false

/-- Whether an event is a post-refresh retry-401 event. -/
def Action.isRetry {n : ℕ} : Action n → Bool
  | .retry401 _ => true
  | _ => false

/-- Whether a caller has resolved with a token, making it retry its
original request with the fresh bearer. -/
def isDoneSome : CallerPhase → Bool
  | .done (some _) => true
  | _ => false

/-- One event of the interleaving semantics. -/
def step {n : ℕ} (s : SFState n) : Action n → SFState n
  | .enter i =>
    if s.callers i = .got401 then
      if s.isRefreshing then
        { s with callers := Function.update s.callers i .waiting }
      else
        { s with isRefreshing := true
                 callers := Function.update s.callers i .owner
                 inFlight := s.inFlight + 1
                 total := s.total + 1 }
    else s
  | .complete i o =>
    if s.callers i = .owner then
      { s with isRefreshing := false
               stored := ownerResult o
               callers := Function.update s.callers i (.done (ownerResult o))
               inFlight := s.inFlight - 1 }
    else s
  | .observe i =>
    if s.callers i = .waiting ∧ s.isRefreshing = false then
      { s with callers := Function.update s.callers i (.done s.stored) }
    else s
  | .retry401 i =>
    if isDoneSome (s.callers i) then
      { s with stored := none }
    else s

/-- Run a schedule of events. -/
def run {n : ℕ} (s : SFState n) (l : List (Action n)) : SFState n :=
  l.foldl step s

/-- Inductive invariant of the part_004 model: the in-flight counter
matches the guard, and the guard matches owner existence and uniqueness. -/
def Inv {n : ℕ} (s : SFState n) : Prop :=
  (s.inFlight = if s.isRefreshing then 1 else 0)
  ∧ (s.isRefreshing = false → ∀ i, s.callers i ≠ .owner)
  ∧ (s.isRefreshing = true →
      ∃ j, s.callers j = .owner ∧ ∀ k, s.callers k = .owner → k = j)

/-- Invariant of the phase in which the 401 continuations run before the
refresh resolves: one refresh call was issued, the guard is set, nobody
has resolved yet, storage is untouched, and the owner is unique. -/
def EnterPhase {n : ℕ} (s0 : Option String) (s : SFState n) : Prop :=
  s.total = 1 ∧ s.isRefreshing = true ∧ s.stored = s0
  ∧ (∀ i r, s.callers i ≠ .done r)
  ∧ (∃ j, s.callers j = .owner ∧ ∀ k, s.callers k = .owner → k = j)

/-- Invariant of the phase after all enters when no retry-401 event
occurs: the total stays 1 and every resolved caller resolved with the
stored value of the moment the flight completed. -/
def RestPhase {n : ℕ} (s : SFState n) : Prop :=
  s.total = 1
  ∧ (s.isRefreshing = true →
      (∀ i r, s.callers i ≠ .done r)
      ∧ (∃ j, s.callers j = .owner ∧ ∀ k, s.callers k = .owner → k = j))
  ∧ (s.isRefreshing = false →
      (∀ i, s.callers i ≠ .owner)
      ∧ (∀ i r, s.callers i = .done r → r = s.stored))

/-- Invariant of the phase after all enters when retry-401 events are
allowed: the total stays 1 and there is one value v, the outcome of the
single flight, such that storage holds v until a retry-401 clears it and
every resolved caller resolved with v or, after such a clearing, with
null. -/
def RestPhaseR {n : ℕ} (s : SFState n) : Prop :=
  s.total = 1
  ∧ (s.isRefreshing = true →
      (∀ i r, s.callers i ≠ .done r)
      ∧ (∃ j, s.callers j = .owner ∧ ∀ k, s.callers k = .owner → k = j))
  ∧ (s.isRefreshing = false →
      (∀ i, s.callers i ≠ .owner)
      ∧ ∃ v, (s.stored = v ∨ s.stored = none)
        ∧ ∀ i r, s.callers i = .done r → r = v ∨ r = none)

end SingleFlight

namespace V2Flight

/-- Phase of one src/lib/api/qrClient.ts fetchWithAuth caller inside its
401 handler. That implementation has no shared guard: the 401 branch of
lines 100-118 issues its refresh fetch unconditionally. -/
inductive Phase where
  | got401
  | refreshing
  | done
deriving DecidableEq, Repr

/-- Per-caller phases plus refresh-call counters for the guardless
variant. -/
structure State (n : ℕ) where
  callers : Fin n → Phase
  inFlight : ℕ
  total : ℕ

/-- Scenario start: all n callers have received their 401. -/
def initV2 (n : ℕ) : State n :=
  { callers := fun _ => .got401, inFlight := 0, total := 0 }

/-- Events: enter i runs the synchronous head of the 401 branch of caller
i, which always issues a refresh fetch; complete i resolves it. -/
inductive Action (n : ℕ) where
  | enter (i : Fin n)
  | complete (i : Fin n)

/-- One event of the guardless interleaving semantics. -/
def step {n : ℕ} (s : State n) : Action n → State n
  | .enter i =>
    if s.callers i = .got401 then
      { callers := Function.update s.callers i .refreshing
        inFlight := s.inFlight + 1
        total := s.total + 1 }
    else s
  | .complete i =>
    if s.callers i = .refreshing then
      { s with callers := Function.update s.callers i .done
               inFlight := s.inFlight - 1 }
    else s

/-- Run a schedule of events. -/
def run {n : ℕ} (s : State n) (l : List (Action n)) : State n :=
  l.foldl step s

end V2Flight

namespace AuthCtx

/-- Combined credential state of the AuthService singleton of part_004
(src/services/authService.ts) and the AuthContext React state.
serviceToken and serviceUser are the private fields of the service,
refreshCred the localStorage entry under the app refresh token key,
ctxToken and ctxUser the React state of AuthContext, and pendingTimer
whether a proactive-refresh setTimeout armed by scheduleTokenRefresh is
currently pending. -/
structure AuthState where
  serviceToken : Option String
  serviceUser : Option String
  refreshCred : Option String
  ctxToken : Option String
  ctxUser : Option String
  pendingTimer : Bool
deriving DecidableEq, Repr

/-- Body of a refresh-endpoint response as consumed by setSession. The
static type promises accessToken, but the runtime value may lack it,
which AuthContext checks for explicitly, so it is optional here. -/
structure RefreshResp where
  accessToken : Option String
  refreshTokenValue : Option String
  user : Option String
deriving DecidableEq, Repr

/-- Outcome of the refresh network request issued by refreshAccessToken. -/
inductive NetResult where
  | ok (r : RefreshResp)
  | err
deriving DecidableEq, Repr

/-- Embedding of AuthService.refreshAccessToken of part_004 (lines
289-308). With no stored refresh credential it throws before touching any
state. When the request fails it clears the whole service session (catch
block calling clearSession) and rethrows. On success setSession stores
the access token, the refresh credential when the response carries one,
and the user when the response carries one. The first component is some
response on success and none when the call threw. -/
def refreshAccessToken (env : NetResult) (s : AuthState) :
    Option RefreshResp × AuthState :=
  match s.refreshCred with
  | none => (none, s)
  | some _ =>
    match env with
    | .err =>
      (none, { s with serviceToken := none, serviceUser := none, refreshCred := none })
    | .ok r =>
      (some r,
        { s with
          serviceToken := r.accessToken
          refreshCred := match r.refreshTokenValue with
            | some rt => some rt
            | none => s.refreshCred
          serviceUser := match r.user with
            | some u => some u
            | none => s.serviceUser })

/-- Embedding of the refreshToken function of AuthContext.tsx lines
73-103. On any failure of refreshAccessToken, or on a response without an
access token, the catch block returns null and the context state is left
as the service left it: the source deliberately does not log out there.
On success the context stores the token, scheduleTokenRefresh may arm a
timer (timerArms says whether the decoded expiry is more than a minute
away), and the user is taken from the response or from a follow-up
getCurrentUser fetch (fetchedUser, none when that fetch fails). -/
def refreshToken (env : NetResult) (timerArms : Bool) (fetchedUser : Option String)
    (s : AuthState) : Option String × AuthState :=
  match refreshAccessToken env s with
  | (none, s1) => (none, s1)
  | (some r, s1) =>
    match r.accessToken with
    | none => (none, s1)
    | some tok =>
      (some tok,
        { s1 with
          ctxToken := some tok
          pendingTimer := s1.pendingTimer || timerArms
          ctxUser := match r.user with
            | some u => some u
            | none => match fetchedUser with
              | some u => some u
              | none => s1.ctxUser })

/-- Embedding of scheduleTokenRefresh (AuthContext.tsx lines 49-67). exp
is the decoded JWT expiry in seconds, now the value of Date.now in
milliseconds. expiresIn is exp times 1000 minus now and the timer is
armed with delay expiresIn minus 60000 only when that delay is positive.
Returns the armed delay, or none when no timer is armed. -/
def scheduleTokenRefresh (exp now : ℤ) : Option ℤ :=
  let expiresIn := exp * 1000 - now
  let refreshAt := expiresIn - 60000
  if refreshAt > 0 then some refreshAt else none

/-- Observable trace of a logout call: whether the logout endpoint was
invoked, whether that invocation failed (failure is swallowed), and the
resulting state. -/
structure LogoutTrace where
  endpointCalled : Bool
  endpointFailed : Bool
  state : AuthState
deriving DecidableEq, Repr

/-- Embedding of AuthService.logout of part_004 (lines 353-370): the
logout endpoint is called only when a refresh credential is stored, any
error of that call is caught and ignored, and clearSession then runs
unconditionally. -/
def serviceLogout (netFails : Bool) (s : AuthState) : LogoutTrace :=
  let called := s.refreshCred.isSome
  { endpointCalled := called
    endpointFailed := called && netFails
    state := { s with serviceToken := none, serviceUser := none, refreshCred := none } }

/-- Embedding of the logout function of AuthContext.tsx lines 165-175:
await the service logout (its failure is already swallowed inside the
service; the catch here only logs), then in the finally clear the context
token and user and navigate to login. No timer handle is kept anywhere in
AuthContext, so a pending proactive-refresh timer is left untouched. -/
def logout (netFails : Bool) (s : AuthState) : LogoutTrace :=
  let t := serviceLogout netFails s
  { t with state := { t.state with ctxToken := none, ctxUser := none } }

end AuthCtx

namespace ScanPage

/-- One entry of the recent-scans list, as normalized by handleValidate
(scan/page.tsx lines 243-254). The payload is already normalized to a
string there. -/
structure HumanReadableScan where
  id : String
  code : String
  payload : String
  oneTime : Bool
  isValid : Bool
  createdAt : String
  validatedAt : Option String
  expiresAt : Option String
  creator : String
deriving DecidableEq, Repr

/-- The fields of the qr object of a ScanResult that the handlers branch
on. qrType embeds the field named type. -/
structure QrLite where
  isValid : Bool
  qrType : String
deriving DecidableEq, Repr

/-- A ScanResult as consumed by the handlers: the qr object and the
humanReadable object, each possibly absent. -/
structure ScanData where
  qr : Option QrLite
  humanReadable : Option HumanReadableScan
deriving DecidableEq, Repr

/-- Embedding of the recent-scans effect of handleValidate (scan/page.tsx
lines 188-276, camera and upload validation path). In order: the invalid
or missing qr branch returns with a destructive toast; the
already-scanned branch (payload equality against the scanned code)
returns with an info toast; the missing humanReadable or non generic type
branch returns; otherwise the normalized scan is prepended and the list
truncated to 20. Returns the updated list and the accepted entry when one
was prepended. -/
def handleValidate (code : String) (data : ScanData)
    (recent : List HumanReadableScan) :
    List HumanReadableScan × Option HumanReadableScan :=
  let qrValid := match data.qr with
    | some q => q.isValid
    | none => false
  if qrValid = false then
    (recent, none)
  else if recent.any (fun s => s.payload = code) then
    (recent, none)
  else
    match data.qr, data.humanReadable with
    | some q, some hr =>
      if q.qrType = "generic" then
        ((hr :: recent).take 20, some hr)
      else
        (recent, none)
    | _, _ => (recent, none)

/-- Embedding of the recent-scans effect of onFileSelected (scan/page.tsx
lines 280-377) after a scan-image response arrived: the missing qr or
missing humanReadable or non generic type branch returns, otherwise the
normalized scan is prepended and the list truncated to 20. The earlier
file-type, file-size and request-error branches also leave the list
unchanged and are subsumed by passing no response here. -/
def onFileSelectedUpdate (data : ScanData) (recent : List HumanReadableScan) :
    List HumanReadableScan × Option HumanReadableScan :=
  match data.qr, data.humanReadable with
  | some q, some hr =>
    if q.qrType = "generic" then
      ((hr :: recent).take 20, some hr)
    else
      (recent, none)
  | _, _ => (recent, none)

end ScanPage

namespace ScanPage

/-- State touched by stopCamera of scan/page.tsx lines 63-84: the
QrScanner instance ref, the stream ref with its tracks, the video
srcObject, and the camera flags. tracks keeps the track objects of the
stream the page acquired; streamAttached records whether streamRef still
references that stream. -/
structure PageCamState where
  scannerActive : Bool
  streamAttached : Bool
  tracks : List QrScanner.Track
  videoSrc : Bool
  isScanning : Bool
  isCameraOpen : Bool
  torchOn : Bool
  torchSupported : Bool
deriving DecidableEq, Repr

/-- Page camera state before openCamera has ever run. -/
def initialPageCam : PageCamState :=
  { scannerActive := false, streamAttached := false, tracks := []
    videoSrc := false, isScanning := false, isCameraOpen := false
    torchOn := false, torchSupported := false }

/-- Embedding of stopCamera (scan/page.tsx lines 63-84): destroy the
scanner and null its ref, stop every track of the stream still referenced
by streamRef and null that ref (a no-op when it is already null), detach
the video, and reset the flags. Both halves are wrapped in try-catch, so
the operation is total. -/
def stopCamera (s : PageCamState) : PageCamState :=
  { scannerActive := false
    streamAttached := false
    tracks := if s.streamAttached then s.tracks.map (fun _ => { stopped := true }) else s.tracks
    videoSrc := false
    isScanning := false
    isCameraOpen := false
    torchOn := false
    torchSupported := false }

/-- Reachability invariant of the page camera: whenever streamRef has been
nulled, every acquired track has already been stopped. It holds initially
and openCamera stores only freshly acquired tracks. -/
def DetachedStoppedCam (s : PageCamState) : Prop :=
  s.streamAttached = false → ∀ t ∈ s.tracks, t.stopped = true

end ScanPage

/-- C7: given an access token with expiry instant T equal to exp times
1000 milliseconds, scheduleTokenRefresh arms a one-shot timer whose
firing instant now plus delay is exactly T minus 60 seconds, which is
strictly before T and strictly after now, and arms no timer when expiry
minus now minus 60 seconds is nonpositive. -/
theorem c7_proactive_refresh_timing :
    (∀ exp now d : ℤ, AuthCtx.scheduleTokenRefresh exp now = some d →
      now + d = exp * 1000 - 60000 ∧ now + d < exp * 1000 ∧ 0 < d)
    ∧ (∀ exp now : ℤ, exp * 1000 - now - 60000 ≤ 0 →
      AuthCtx.scheduleTokenRefresh exp now = none) := by
  constructor
  · intro exp now d h
    unfold AuthCtx.scheduleTokenRefresh at h
    by_cases hc : exp * 1000 - now - 60000 > 0
    · simp only [hc, if_pos] at h
      obtain rfl : exp * 1000 - now - 60000 = d := Option.some_injective _ h
      omega
    · simp only [hc, if_neg, if_false] at h
      exact absurd h (by simp)
  · intro exp now h
    unfold AuthCtx.scheduleTokenRefresh
    have : ¬ (exp * 1000 - now - 60000 > 0) := by omega
    simp [this]

/-- C7 witness: a token expiring at second 100 observed at millisecond 0
is scheduled to fire at millisecond 40000, exactly one minute before
expiry; a token expiring at second 50 observed at millisecond 0 leaves no
timer armed since less than a minute remains. -/
theorem c7_proactive_refresh_timing_witness :
    ((0 : ℤ) + 40000 = 100 * 1000 - 60000 ∧ (0 : ℤ) + 40000 < 100 * 1000
      ∧ (0 : ℤ) < 40000)
    ∧ AuthCtx.scheduleTokenRefresh 50 0 = none :=
  ⟨c7_proactive_refresh_timing.1 100 0 40000 (by decide),
   c7_proactive_refresh_timing.2 50 0 (by decide)⟩

/-- C9: stop composed with stop equals stop, the state after stop has no
active media track, and the same holds for stopCamera of the scan page;
the hypotheses are the reachability invariants that a detached stream has
already had its tracks stopped, which hold from the initial states. -/
theorem c9_stop_idempotent (s : QrScanner.WidgetState)
    (hs : QrScanner.DetachedStopped s)
    (p : ScanPage.PageCamState) (hp : ScanPage.DetachedStoppedCam p) :
    QrScanner.stop (QrScanner.stop s) = QrScanner.stop s
    ∧ (∀ t ∈ (QrScanner.stop s).tracks, t.stopped = true)
    ∧ ScanPage.stopCamera (ScanPage.stopCamera p) = ScanPage.stopCamera p
    ∧ (∀ t ∈ (ScanPage.stopCamera p).tracks, t.stopped = true) := by
  refine ⟨by simp [QrScanner.stop], ?_, by simp [ScanPage.stopCamera], ?_⟩
  · intro t ht
    simp only [QrScanner.stop] at ht
    by_cases hsrc : s.srcAttached = true
    · rw [if_pos hsrc] at ht
      simp only [List.mem_map] at ht
      obtain ⟨a, -, rfl⟩ := ht
      rfl
    · rw [if_neg hsrc] at ht
      exact hs (by simpa using hsrc) t ht
  · intro t ht
    simp only [ScanPage.stopCamera] at ht
    by_cases hsrc : p.streamAttached = true
    · rw [if_pos hsrc] at ht
      simp only [List.mem_map] at ht
      obtain ⟨a, -, rfl⟩ := ht
      rfl
    · rw [if_neg hsrc] at ht
      exact hp (by simpa using hsrc) t ht

/-- C9 witness: stop called before start has ever run, twice in a row,
from the initial states of the widget and of the scan page. -/
theorem c9_stop_idempotent_witness :
    QrScanner.stop (QrScanner.stop QrScanner.initialWidget)
        = QrScanner.stop QrScanner.initialWidget
    ∧ (∀ t ∈ (QrScanner.stop QrScanner.initialWidget).tracks, t.stopped = true)
    ∧ ScanPage.stopCamera (ScanPage.stopCamera ScanPage.initialPageCam)
        = ScanPage.stopCamera ScanPage.initialPageCam
    ∧ (∀ t ∈ (ScanPage.stopCamera ScanPage.initialPageCam).tracks,
        t.stopped = true) :=
  c9_stop_idempotent QrScanner.initialWidget
    (by intro _ t ht; simp [QrScanner.initialWidget] at ht)
    ScanPage.initialPageCam
    (by intro _ t ht; simp [ScanPage.initialPageCam] at ht)

/-- Helper: handleValidate either leaves the list unchanged and accepts
nothing, or prepends the accepted scan and truncates to 20. -/
theorem handleValidate_cases (code : String) (data : ScanPage.ScanData)
    (recent : List ScanPage.HumanReadableScan) :
    ScanPage.handleValidate code data recent = (recent, none)
    ∨ ∃ hr, ScanPage.handleValidate code data recent
        = ((hr :: recent).take 20, some hr) := by
  simp only [ScanPage.handleValidate]
  split
  · exact Or.inl rfl
  · split
    · exact Or.inl rfl
    · split
      · split
        · exact Or.inr ⟨_, rfl⟩
        · exact Or.inl rfl
      · exact Or.inl rfl

/-- Helper: onFileSelectedUpdate either leaves the list unchanged and
accepts nothing, or prepends the accepted scan and truncates to 20. -/
theorem onFileSelectedUpdate_cases (data : ScanPage.ScanData)
    (recent : List ScanPage.HumanReadableScan) :
    ScanPage.onFileSelectedUpdate data recent = (recent, none)
    ∨ ∃ hr, ScanPage.onFileSelectedUpdate data recent
        = ((hr :: recent).take 20, some hr) := by
  simp only [ScanPage.onFileSelectedUpdate]
  split
  · split
    · exact Or.inr ⟨_, rfl⟩
    · exact Or.inl rfl
  · exact Or.inl rfl

/-- Helper: a list extended at the front and truncated to 20 has at most
20 entries and starts with the new entry. -/
theorem take20_head_len (hr : ScanPage.HumanReadableScan)
    (recent : List ScanPage.HumanReadableScan) :
    ((hr :: recent).take 20).length ≤ 20
    ∧ ((hr :: recent).take 20).head? = some hr := by
  constructor
  · rw [List.length_take]
    exact Nat.min_le_left _ _
  · rfl

/-- C10: in both validation handlers of the scan page, an accepted scan is
prepended and the list truncated to 20 entries with the new scan first,
and a failed or rejected validation leaves the list unchanged. -/
theorem c10_recent_scans_bound (code : String) (data : ScanPage.ScanData)
    (recent : List ScanPage.HumanReadableScan) :
    (∀ hr, (ScanPage.handleValidate code data recent).2 = some hr →
      (ScanPage.handleValidate code data recent).1 = (hr :: recent).take 20
      ∧ (ScanPage.handleValidate code data recent).1.length ≤ 20
      ∧ (ScanPage.handleValidate code data recent).1.head? = some hr)
    ∧ ((ScanPage.handleValidate code data recent).2 = none →
      (ScanPage.handleValidate code data recent).1 = recent)
    ∧ (∀ hr, (ScanPage.onFileSelectedUpdate data recent).2 = some hr →
      (ScanPage.onFileSelectedUpdate data recent).1 = (hr :: recent).take 20
      ∧ (ScanPage.onFileSelectedUpdate data recent).1.length ≤ 20
      ∧ (ScanPage.onFileSelectedUpdate data recent).1.head? = some hr)
    ∧ ((ScanPage.onFileSelectedUpdate data recent).2 = none →
      (ScanPage.onFileSelectedUpdate data recent).1 = recent) := by
  refine ⟨?_, ?_, ?_, ?_⟩
  · intro hr h
    rcases handleValidate_cases code data recent with hc | ⟨hr2, hc⟩
    · rw [hc] at h; exact absurd h (by simp)
    · rw [hc] at h ⊢
      have heq : hr2 = hr := by simpa using h
      subst heq
      exact ⟨rfl, (take20_head_len _ recent).1, (take20_head_len _ recent).2⟩
  · intro h
    rcases handleValidate_cases code data recent with hc | ⟨hr2, hc⟩
    · rw [hc]
    · rw [hc] at h; exact absurd h (by simp)
  · intro hr h
    rcases onFileSelectedUpdate_cases data recent with hc | ⟨hr2, hc⟩
    · rw [hc] at h; exact absurd h (by simp)
    · rw [hc] at h ⊢
      have heq : hr2 = hr := by simpa using h
      subst heq
      exact ⟨rfl, (take20_head_len _ recent).1, (take20_head_len _ recent).2⟩
  · intro h
    rcases onFileSelectedUpdate_cases data recent with hc | ⟨hr2, hc⟩
    · rw [hc]
    · rw [hc] at h; exact absurd h (by simp)

/-- C4 counterexample to the claim as stated: with the default widget
state, the text A decoded at millisecond 10000 fires onDecoded, and the
same text decoded again at millisecond 20000, a full 10000 milliseconds
later and far beyond the 800 millisecond cooldown, does NOT produce a
second onDecoded call, because the dedup guard compares against
lastDecodedValue with a disjunction and lastCodeRef is never reset. -/
theorem c4_cooldown_counterexample :
    (QrScanner.decodeCallback 0 0 10000 ⟨"A", none⟩ QrScanner.initialScanner).2 = true
    ∧ (800 : ℤ) ≤ 20000 - 10000
    ∧ (QrScanner.decodeCallback 0 0 20000 ⟨"A", none⟩
        (QrScanner.decodeCallback 0 0 10000 ⟨"A", none⟩ QrScanner.initialScanner).1).2
      = false := by
  refine ⟨?_, by decide, ?_⟩ <;> rfl

/-- Helper: when the decode callback fires, the refs are updated to the
accepted text and timestamp. -/
theorem decodeCallback_fired (vw vh : ℚ) (now : ℤ) (r : QrScanner.DecodeResult)
    (s : QrScanner.ScannerState)
    (h : (QrScanner.decodeCallback vw vh now r s).2 = true) :
    (QrScanner.decodeCallback vw vh now r s).1
      = { s with lastCode := some r.text, lastScanAt := now } := by
  unfold QrScanner.decodeCallback at h ⊢
  split at h
  · exact absurd h (by simp)
  · split at h
    · exact absurd h (by simp)
    · next h1 h2 =>
      rw [if_neg h1, if_neg h2]

/-- C4 amended: two consecutive decodes of the same text produce exactly
one onDecoded call whether or not the cooldown has elapsed (the widget
never re-accepts the text stored in lastCodeRef), and a decode of a
different text after the cooldown has elapsed produces a second call when
it passes the ROI stage. -/
theorem c4_cooldown_dedup_amended (vw vh : ℚ) (now1 now2 : ℤ)
    (r1 r2 : QrScanner.DecodeResult) (s : QrScanner.ScannerState)
    (h : (QrScanner.decodeCallback vw vh now1 r1 s).2 = true) :
    (r2.text = r1.text →
      (QrScanner.decodeCallback vw vh now2 r2
        (QrScanner.decodeCallback vw vh now1 r1 s).1).2 = false)
    ∧ (r2.text ≠ r1.text →
       QrScanner.roiPass s.roiFraction vw vh r2 = true →
       s.cooldownMs ≤ now2 - now1 →
      (QrScanner.decodeCallback vw vh now2 r2
        (QrScanner.decodeCallback vw vh now1 r1 s).1).2 = true) := by
  rw [decodeCallback_fired vw vh now1 r1 s h]
  constructor
  · intro hsame
    unfold QrScanner.decodeCallback
    split
    · rfl
    · rw [if_pos (Or.inl (by simp [hsame]))]
  · intro hdiff hroi hcool
    unfold QrScanner.decodeCallback
    rw [if_neg (by simp [hroi])]
    rw [if_neg ?_]
    push_neg
    exact ⟨fun hh => hdiff (Option.some.inj hh).symm, by simpa using hcool⟩

/-- C4 amended witness: text A fires at millisecond 10000; text A again at
millisecond 20000 stays silent; text B at millisecond 20000 fires. -/
theorem c4_cooldown_dedup_amended_witness :
    ((QrScanner.decodeCallback 0 0 20000 ⟨"A", none⟩
        (QrScanner.decodeCallback 0 0 10000 ⟨"A", none⟩ QrScanner.initialScanner).1).2
      = false)
    ∧ ((QrScanner.decodeCallback 0 0 20000 ⟨"B", none⟩
        (QrScanner.decodeCallback 0 0 10000 ⟨"A", none⟩ QrScanner.initialScanner).1).2
      = true) :=
  ⟨(c4_cooldown_dedup_amended 0 0 10000 20000 ⟨"A", none⟩ ⟨"A", none⟩
      QrScanner.initialScanner (by decide)).1 (by decide),
   (c4_cooldown_dedup_amended 0 0 10000 20000 ⟨"A", none⟩ ⟨"B", none⟩
      QrScanner.initialScanner (by decide)).2 (by decide) (by decide) (by decide)⟩

/-- Helper: with a nonempty points array the ROI stage is exactly the
isInRoi test at the centroid. -/
theorem roiPass_some (f vw vh : ℚ) (text : String)
    (pts : List QrScanner.ResultPoint) (hne : pts ≠ []) :
    QrScanner.roiPass f vw vh ⟨text, some pts⟩
      = QrScanner.isInRoi f vw vh (QrScanner.centroidX pts) (QrScanner.centroidY pts) := by
  show (if pts.length = 0 then true
    else QrScanner.isInRoi f vw vh (QrScanner.centroidX pts) (QrScanner.centroidY pts)) = _
  rw [if_neg]
  simp only [List.length_eq_zero]
  exact hne

/-- Helper: with both dimensions known, a centroid strictly outside the
centered square fails the isInRoi test. -/
theorem isInRoi_of_outside (f vw vh cx cy : ℚ) (hvw : vw ≠ 0) (hvh : vh ≠ 0)
    (hout : cx < (vw - min vw vh * f) / 2
      ∨ (vw - min vw vh * f) / 2 + min vw vh * f < cx
      ∨ cy < (vh - min vw vh * f) / 2
      ∨ (vh - min vw vh * f) / 2 + min vw vh * f < cy) :
    QrScanner.isInRoi f vw vh cx cy = false := by
  unfold QrScanner.isInRoi
  rw [if_neg (by push_neg; exact ⟨hvw, hvh⟩)]
  dsimp only
  simp only [decide_eq_false_iff_not]
  rintro ⟨k1, k2, k3, k4⟩
  rcases hout with hh | hh | hh | hh <;> linarith

/-- Helper: a centroid inside the centered square, boundary included,
passes the isInRoi test; with an unknown dimension the test passes
unconditionally. -/
theorem isInRoi_of_inside (f vw vh cx cy : ℚ)
    (h1 : (vw - min vw vh * f) / 2 ≤ cx)
    (h2 : cx ≤ (vw - min vw vh * f) / 2 + min vw vh * f)
    (h3 : (vh - min vw vh * f) / 2 ≤ cy)
    (h4 : cy ≤ (vh - min vw vh * f) / 2 + min vw vh * f) :
    QrScanner.isInRoi f vw vh cx cy = true := by
  unfold QrScanner.isInRoi
  split
  · rfl
  · dsimp only
    simp only [decide_eq_true_eq]
    exact ⟨h1, h2, h3, h4⟩

/-- C5: with known video dimensions, a detection whose centroid lies
strictly outside the centered square of side roiFraction times the
smaller dimension never invokes onDecoded; a detection whose centroid
lies inside the square, boundary included, invokes onDecoded when the
dedup guard passes; and a detection without points skips the ROI check
entirely, firing exactly when the dedup guard passes. -/
theorem c5_roi_filter :
    (∀ (vw vh : ℚ) (now : ℤ) (s : QrScanner.ScannerState) (text : String)
       (pts : List QrScanner.ResultPoint),
       0 < vw → 0 < vh → pts ≠ [] →
       (QrScanner.centroidX pts < (vw - min vw vh * s.roiFraction) / 2
        ∨ (vw - min vw vh * s.roiFraction) / 2 + min vw vh * s.roiFraction
            < QrScanner.centroidX pts
        ∨ QrScanner.centroidY pts < (vh - min vw vh * s.roiFraction) / 2
        ∨ (vh - min vw vh * s.roiFraction) / 2 + min vw vh * s.roiFraction
            < QrScanner.centroidY pts) →
       (QrScanner.decodeCallback vw vh now ⟨text, some pts⟩ s).2 = false)
    ∧ (∀ (vw vh : ℚ) (now : ℤ) (s : QrScanner.ScannerState) (text : String)
       (pts : List QrScanner.ResultPoint),
       pts ≠ [] →
       (vw - min vw vh * s.roiFraction) / 2 ≤ QrScanner.centroidX pts →
       QrScanner.centroidX pts
         ≤ (vw - min vw vh * s.roiFraction) / 2 + min vw vh * s.roiFraction →
       (vh - min vw vh * s.roiFraction) / 2 ≤ QrScanner.centroidY pts →
       QrScanner.centroidY pts
         ≤ (vh - min vw vh * s.roiFraction) / 2 + min vw vh * s.roiFraction →
       s.lastCode ≠ some text →
       s.cooldownMs ≤ now - s.lastScanAt →
       (QrScanner.decodeCallback vw vh now ⟨text, some pts⟩ s).2 = true)
    ∧ (∀ (vw vh : ℚ) (now : ℤ) (s : QrScanner.ScannerState) (text : String),
       (QrScanner.decodeCallback vw vh now ⟨text, none⟩ s).2 = true
         ↔ (s.lastCode ≠ some text ∧ s.cooldownMs ≤ now - s.lastScanAt)) := by
  refine ⟨?_, ?_, ?_⟩
  · intro vw vh now s text pts hvw hvh hne hout
    unfold QrScanner.decodeCallback
    rw [if_pos]
    rw [roiPass_some s.roiFraction vw vh text pts hne]
    exact isInRoi_of_outside s.roiFraction vw vh _ _ (ne_of_gt hvw) (ne_of_gt hvh) hout
  · intro vw vh now s text pts hne h1 h2 h3 h4 hcode hcool
    unfold QrScanner.decodeCallback
    rw [if_neg, if_neg]
    · push_neg
      exact ⟨hcode, by omega⟩
    · rw [roiPass_some s.roiFraction vw vh text pts hne]
      rw [isInRoi_of_inside s.roiFraction vw vh _ _ h1 h2 h3 h4]
      simp
  · intro vw vh now s text
    unfold QrScanner.decodeCallback
    rw [if_neg (by simp [QrScanner.roiPass])]
    split
    · next hc =>
      constructor
      · intro h
        exact absurd h (by simp)
      · rintro ⟨hx1, hx2⟩
        rcases hc with hc | hc
        · exact absurd hc hx1
        · exact absurd hc (by omega)
    · next hc =>
      push_neg at hc
      constructor
      · intro _
        exact ⟨hc.1, by omega⟩
      · intro _
        rfl

/-- C5 witness: in a 100 by 100 frame with the default fraction 0.6 the
square spans 20 to 80 in both axes; a single point at 5 and 5 is
discarded, a single point at 50 and 50 fires from the initial state at
millisecond 10000, and a pointless detection from the initial state also
fires. -/
theorem c5_roi_filter_witness :
    ((QrScanner.decodeCallback 100 100 10000
        ⟨"A", some [⟨5, 5⟩]⟩ QrScanner.initialScanner).2 = false)
    ∧ ((QrScanner.decodeCallback 100 100 10000
        ⟨"A", some [⟨50, 50⟩]⟩ QrScanner.initialScanner).2 = true)
    ∧ ((QrScanner.decodeCallback 100 100 10000
        ⟨"A", none⟩ QrScanner.initialScanner).2 = true) :=
  ⟨c5_roi_filter.1 100 100 10000 QrScanner.initialScanner "A" [⟨5, 5⟩]
      (by norm_num) (by norm_num) (by simp)
      (by norm_num [QrScanner.centroidX, QrScanner.initialScanner, inf_idem]),
   c5_roi_filter.2.1 100 100 10000 QrScanner.initialScanner "A" [⟨50, 50⟩]
      (by simp)
      (by norm_num [QrScanner.centroidX, QrScanner.initialScanner, inf_idem])
      (by norm_num [QrScanner.centroidX, QrScanner.initialScanner, inf_idem])
      (by norm_num [QrScanner.centroidY, QrScanner.initialScanner, inf_idem])
      (by norm_num [QrScanner.centroidY, QrScanner.initialScanner, inf_idem])
      (by simp [QrScanner.initialScanner])
      (by norm_num [QrScanner.initialScanner]),
   (c5_roi_filter.2.2 100 100 10000 QrScanner.initialScanner "A").2
      ⟨by simp [QrScanner.initialScanner], by norm_num [QrScanner.initialScanner]⟩⟩

/-- C2 counterexample to the claim as stated: in the fetchWithAuth of
src/lib/api/qrClient.ts, when the retried request also returns 401 the
call fails with a generic status error, not a session-expired error, and
the stored access token is not cleared. -/
theorem c2_counterexample :
    ((QrClientSrc.fetchWithAuth "http://localhost:5555/qr/history" (some "t1")
        ⟨401, some "t2", 401⟩).result = QrClientLS.FetchResult.apiError 401)
    ∧ ((QrClientSrc.fetchWithAuth "http://localhost:5555/qr/history" (some "t1")
        ⟨401, some "t2", 401⟩).storedAfter = some "t2")
    ∧ ((QrClientSrc.fetchWithAuth "http://localhost:5555/qr/history" (some "t1")
        ⟨401, some "t2", 401⟩).redirected = false) :=
  ⟨rfl, rfl, rfl⟩

/-- C2 amended: in both fetchWithAuth variants the original request is
issued at most twice, so it is retried at most once after a 401 and a
retry that returns 401 triggers no third attempt; in the part_004 variant
a 401 on the post-refresh retry additionally clears the stored access
token and fails terminally with the session-expired error, while the
src/lib variant surfaces it as a plain status error without clearing. -/
theorem c2_no_double_retry :
    (∀ (url : String) (stored : Option String) (env : QrClientLS.Env),
      (QrClientLS.fetchWithAuth url stored env).attempts.length ≤ 2)
    ∧ (∀ (url : String) (stored : Option String) (env : QrClientLS.Env) (t : String),
       isAuthUrl url = false → env.firstStatus = 401 →
       env.refreshOutcome = QrClientLS.RefreshOutcome.token t →
       env.retryStatus = 401 →
       (QrClientLS.fetchWithAuth url stored env).result
           = QrClientLS.FetchResult.sessionExpired
       ∧ (QrClientLS.fetchWithAuth url stored env).storedAfter = none
       ∧ (QrClientLS.fetchWithAuth url stored env).attempts.length = 2)
    ∧ (∀ (url : String) (stored : Option String) (env : QrClientSrc.Env),
      (QrClientSrc.fetchWithAuth url stored env).attempts.length ≤ 2) := by
  refine ⟨?_, ?_, ?_⟩
  · intro url stored env
    simp only [QrClientLS.fetchWithAuth]
    split
    · split
      · split <;> simp
      · simp
    · simp
  · intro url stored env t h1 h2 h3 h4
    obtain ⟨fs, ro, rs⟩ := env
    simp only at h2 h3 h4
    subst h2; subst h3; subst h4
    simp [QrClientLS.fetchWithAuth, QrClientLS.refreshAuthToken, h1]
  · intro url stored env
    simp only [QrClientSrc.fetchWithAuth]
    split
    · split <;> simp
    · simp

/-- C2 witness: a non-auth request whose first response and post-refresh
retry are both 401 against the part_004 variant. -/
theorem c2_no_double_retry_witness :
    ((QrClientLS.fetchWithAuth "http://localhost:5555/qr/history" (some "t0")
        ⟨401, QrClientLS.RefreshOutcome.token "t1", 401⟩).result
      = QrClientLS.FetchResult.sessionExpired)
    ∧ ((QrClientLS.fetchWithAuth "http://localhost:5555/qr/history" (some "t0")
        ⟨401, QrClientLS.RefreshOutcome.token "t1", 401⟩).storedAfter = none)
    ∧ ((QrClientLS.fetchWithAuth "http://localhost:5555/qr/history" (some "t0")
        ⟨401, QrClientLS.RefreshOutcome.token "t1", 401⟩).attempts.length = 2) :=
  c2_no_double_retry.2.1 "http://localhost:5555/qr/history" (some "t0")
    ⟨401, QrClientLS.RefreshOutcome.token "t1", 401⟩ "t1"
    (by decide) rfl rfl rfl

/-- C3 counterexample to the claim as stated: the fetchWithAuth of
src/lib/api/qrClient.ts does not inspect the url, so a request to an
authentication endpoint with a previously stored token gets the stale
bearer header attached and its 401 response triggers a refresh call. -/
theorem c3_counterexample :
    isAuthUrl "http://localhost:5555/auth/login" = true
    ∧ ((QrClientSrc.fetchWithAuth "http://localhost:5555/auth/login" (some "stale")
        ⟨401, some "fresh", 200⟩).attempts = [some "stale", some "fresh"])
    ∧ ((QrClientSrc.fetchWithAuth "http://localhost:5555/auth/login" (some "stale")
        ⟨401, some "fresh", 200⟩).refreshCalls = 1) :=
  ⟨by decide, rfl, rfl⟩

/-- C3 amended: the part_004 fetchWithAuth satisfies the exemption: a
request whose url contains the auth segment is issued exactly once with
no Authorization header regardless of the stored token, and it never
triggers a refresh call even on a 401 response. The src/lib variant lacks
the exemption, but inside the repository it is only invoked with qr
endpoint urls. -/
theorem c3_auth_endpoint_exemption :
    ∀ (url : String) (stored : Option String) (env : QrClientLS.Env),
      isAuthUrl url = true →
      (QrClientLS.fetchWithAuth url stored env).attempts = [none]
      ∧ (QrClientLS.fetchWithAuth url stored env).refreshCalls = 0 := by
  intro url stored env h
  simp [QrClientLS.fetchWithAuth, h]

/-- C3 witness: a login request with a stale stored token whose first
response is 401 attaches no header and refreshes nothing. -/
theorem c3_auth_endpoint_exemption_witness :
    ((QrClientLS.fetchWithAuth "http://localhost:5555/auth/login" (some "stale")
        ⟨401, QrClientLS.RefreshOutcome.token "fresh", 200⟩).attempts = [none])
    ∧ ((QrClientLS.fetchWithAuth "http://localhost:5555/auth/login" (some "stale")
        ⟨401, QrClientLS.RefreshOutcome.token "fresh", 200⟩).refreshCalls = 0) :=
  c3_auth_endpoint_exemption "http://localhost:5555/auth/login" (some "stale")
    ⟨401, QrClientLS.RefreshOutcome.token "fresh", 200⟩ (by decide)

/-- C6 counterexample to the claim as stated: with no refresh credential
stored, refreshToken returns null but clears nothing: the service access
token, the context access token and the user state all survive, so the
session does not transition to a cleared anonymous state. -/
theorem c6_counterexample :
    ((AuthCtx.refreshToken AuthCtx.NetResult.err true none
        ⟨some "old", some "usr", none, some "old", some "usr", false⟩).1 = none)
    ∧ ((AuthCtx.refreshToken AuthCtx.NetResult.err true none
        ⟨some "old", some "usr", none, some "old", some "usr", false⟩).2
      = ⟨some "old", some "usr", none, some "old", some "usr", false⟩) :=
  ⟨rfl, rfl⟩

/-- C6 amended: refreshToken returns null in every failure case; when the
refresh network call itself fails the service session is cleared (service
access token nulled, service user cleared, refresh credential removed)
but the context state is deliberately left untouched, and when no refresh
credential exists nothing at all is cleared; on success it returns the
fresh token and stores it in the context. -/
theorem c6_refresh_failure_clears (env : AuthCtx.NetResult) (ta : Bool)
    (fu : Option String) (s : AuthCtx.AuthState) :
    (s.refreshCred = none → AuthCtx.refreshToken env ta fu s = (none, s))
    ∧ (∀ c, s.refreshCred = some c → env = .err →
      AuthCtx.refreshToken env ta fu s
        = (none, { s with serviceToken := none, serviceUser := none, refreshCred := none }))
    ∧ (∀ c r tok, s.refreshCred = some c → env = .ok r → r.accessToken = some tok →
      (AuthCtx.refreshToken env ta fu s).1 = some tok
      ∧ (AuthCtx.refreshToken env ta fu s).2.ctxToken = some tok) := by
  refine ⟨?_, ?_, ?_⟩
  · intro h
    simp [AuthCtx.refreshToken, AuthCtx.refreshAccessToken, h]
  · intro c hc he
    subst he
    simp [AuthCtx.refreshToken, AuthCtx.refreshAccessToken, hc]
  · intro c r tok hc he ht
    subst he
    simp [AuthCtx.refreshToken, AuthCtx.refreshAccessToken, hc, ht]

/-- C6 witness: the three cases at concrete states: no credential, a
failing refresh with a credential, and a successful refresh. -/
theorem c6_refresh_failure_clears_witness :
    (AuthCtx.refreshToken AuthCtx.NetResult.err false none
        ⟨some "old", some "usr", none, some "old", some "usr", false⟩
      = (none, ⟨some "old", some "usr", none, some "old", some "usr", false⟩))
    ∧ (AuthCtx.refreshToken AuthCtx.NetResult.err false none
        ⟨some "old", some "usr", some "rc", some "old", some "usr", false⟩
      = (none, { (⟨some "old", some "usr", some "rc", some "old", some "usr", false⟩
            : AuthCtx.AuthState) with
          serviceToken := none, serviceUser := none, refreshCred := none }))
    ∧ ((AuthCtx.refreshToken (AuthCtx.NetResult.ok ⟨some "new", none, none⟩) true none
        ⟨some "old", some "usr", some "rc", some "old", some "usr", false⟩).1
      = some "new") :=
  ⟨(c6_refresh_failure_clears AuthCtx.NetResult.err false none
      ⟨some "old", some "usr", none, some "old", some "usr", false⟩).1 rfl,
   (c6_refresh_failure_clears AuthCtx.NetResult.err false none
      ⟨some "old", some "usr", some "rc", some "old", some "usr", false⟩).2.1
      "rc" rfl rfl,
   ((c6_refresh_failure_clears (AuthCtx.NetResult.ok ⟨some "new", none, none⟩) true none
      ⟨some "old", some "usr", some "rc", some "old", some "usr", false⟩).2.2
      "rc" ⟨some "new", none, none⟩ "new" rfl rfl rfl).1⟩

/-- C8 counterexample to the claim as stated: logout with a pending
proactive-refresh timer leaves the timer pending, because AuthContext
never stores the setTimeout handle and has no clearTimeout; the context
token is cleared all the same. -/
theorem c8_counterexample :
    ((AuthCtx.logout false
        ⟨some "tok", some "usr", some "rc", some "tok", some "usr", true⟩).state.pendingTimer
      = true)
    ∧ ((AuthCtx.logout false
        ⟨some "tok", some "usr", some "rc", some "tok", some "usr", true⟩).state.ctxToken
      = none) :=
  ⟨rfl, rfl⟩

/-- C8 amended: logout reaches the same state whether or not the network
call fails, calls the logout endpoint exactly when a refresh credential
is stored, and unconditionally clears the service token, service user,
refresh credential, context token and context user, while a pending
proactive-refresh timer is left untouched. -/
theorem c8_logout_best_effort (nf : Bool) (s : AuthCtx.AuthState) :
    (AuthCtx.logout true s).state = (AuthCtx.logout false s).state
    ∧ (AuthCtx.logout nf s).endpointCalled = s.refreshCred.isSome
    ∧ (AuthCtx.logout nf s).state.serviceToken = none
    ∧ (AuthCtx.logout nf s).state.serviceUser = none
    ∧ (AuthCtx.logout nf s).state.refreshCred = none
    ∧ (AuthCtx.logout nf s).state.ctxToken = none
    ∧ (AuthCtx.logout nf s).state.ctxUser = none
    ∧ (AuthCtx.logout nf s).state.pendingTimer = s.pendingTimer :=
  ⟨rfl, rfl, rfl, rfl, rfl, rfl, rfl, rfl⟩


/-- Helper: each event of the part_004 model preserves the owner and
in-flight invariant. -/
theorem sf_step_inv {n : ℕ} {s : SingleFlight.SFState n}
    (h : SingleFlight.Inv s) (a : SingleFlight.Action n) :
    SingleFlight.Inv (SingleFlight.step s a) := by
  obtain ⟨hcount, hnoown, huniq⟩ := h
  cases a with
  | enter i =>
    simp only [SingleFlight.step]
    split
    · next hph =>
      split
      · next hflag =>
        simp only [SingleFlight.Inv]
        refine ⟨hcount, ?_, ?_⟩
        · intro hf
          rw [hflag] at hf
          exact Bool.noConfusion hf
        · intro _
          obtain ⟨j, hj, hju⟩ := huniq hflag
          have hne : j ≠ i := by
            intro e
            rw [e, hph] at hj
            exact SingleFlight.CallerPhase.noConfusion hj
          refine ⟨j, ?_, ?_⟩
          · rw [Function.update_noteq hne]
            exact hj
          · intro k hk
            by_cases hki : k = i
            · rw [hki, Function.update_same] at hk
              exact absurd hk (by simp)
            · rw [Function.update_noteq hki] at hk
              exact hju k hk
      · next hflag =>
        have hfl : s.isRefreshing = false := by
          simpa using hflag
        simp only [SingleFlight.Inv]
        refine ⟨?_, ?_, ?_⟩
        · have h0 : s.inFlight = 0 := by
            rw [hcount, hfl]
            rfl
          simp [h0]
        · intro hf
          exact Bool.noConfusion hf
        · intro _
          refine ⟨i, Function.update_same i _ _, ?_⟩
          intro k hk
          by_cases hki : k = i
          · exact hki
          · rw [Function.update_noteq hki] at hk
            exact absurd hk (hnoown hfl k)
    · exact ⟨hcount, hnoown, huniq⟩
  | complete i o =>
    simp only [SingleFlight.step]
    split
    · next hph =>
      have hflag : s.isRefreshing = true := by
        by_contra hc
        have hfl : s.isRefreshing = false := by simpa using hc
        exact hnoown hfl i hph
      obtain ⟨j, hj, hju⟩ := huniq hflag
      have hij : i = j := hju i hph
      simp only [SingleFlight.Inv]
      refine ⟨?_, ?_, ?_⟩
      · have h1 : s.inFlight = 1 := by
          rw [hcount, hflag]
          rfl
        simp [h1]
      · intro _ k
        by_cases hki : k = i
        · rw [hki, Function.update_same]
          simp
        · rw [Function.update_noteq hki]
          intro hk
          exact hki (by rw [hju k hk, ← hij])
      · intro hf
        exact Bool.noConfusion hf
    · exact ⟨hcount, hnoown, huniq⟩
  | observe i =>
    simp only [SingleFlight.step]
    split
    · next hcnd =>
      simp only [SingleFlight.Inv]
      refine ⟨hcount, ?_, ?_⟩
      · intro _ k
        by_cases hki : k = i
        · rw [hki, Function.update_same]
          simp
        · rw [Function.update_noteq hki]
          exact hnoown hcnd.2 k
      · intro hf
        rw [hcnd.2] at hf
        exact Bool.noConfusion hf
    · exact ⟨hcount, hnoown, huniq⟩
  | retry401 i =>
    simp only [SingleFlight.step]
    split
    · exact ⟨hcount, hnoown, huniq⟩
    · exact ⟨hcount, hnoown, huniq⟩

/-- Helper: the invariant holds after any schedule from the scenario
start. -/
theorem sf_run_inv {n : ℕ} (s0 : Option String)
    (l : List (SingleFlight.Action n)) :
    SingleFlight.Inv (SingleFlight.run (SingleFlight.initSF n s0) l) := by
  have hinit : SingleFlight.Inv (SingleFlight.initSF n s0) := by
    refine ⟨rfl, ?_, ?_⟩
    · intro _ i
      simp [SingleFlight.initSF]
    · intro hf
      exact Bool.noConfusion hf
  have hstep : ∀ (l : List (SingleFlight.Action n)) (s : SingleFlight.SFState n),
      SingleFlight.Inv s → SingleFlight.Inv (SingleFlight.run s l) := by
    intro l
    induction l with
    | nil => exact fun s h => h
    | cons a l ih =>
      intro s h
      exact ih _ (sf_step_inv h a)
  exact hstep _ _ hinit

/-- Helper: run distributes over list append. -/
theorem sf_run_append {n : ℕ} (s : SingleFlight.SFState n)
    (l1 l2 : List (SingleFlight.Action n)) :
    SingleFlight.run s (l1 ++ l2) = SingleFlight.run (SingleFlight.run s l1) l2 :=
  List.foldl_append SingleFlight.step s l1 l2

/-- Helper: an enter event preserves the enter-phase invariant. -/
theorem sf_enter_step {n : ℕ} {s0 : Option String} {s : SingleFlight.SFState n}
    (h : SingleFlight.EnterPhase s0 s) (a : SingleFlight.Action n)
    (ha : a.isEnter = true) :
    SingleFlight.EnterPhase s0 (SingleFlight.step s a) := by
  obtain ⟨htot, hflag, hstored, hnodone, j, hj, hju⟩ := h
  cases a with
  | enter i =>
    simp only [SingleFlight.step]
    split
    · next hph =>
      have hne : j ≠ i := by
        intro e
        rw [e, hph] at hj
        exact SingleFlight.CallerPhase.noConfusion hj
      simp only [SingleFlight.EnterPhase]
      refine ⟨htot, hflag, hstored, ?_, j, ?_, ?_⟩
      · intro k r
        by_cases hki : k = i
        · rw [hki, Function.update_same]
          simp
        · rw [Function.update_noteq hki]
          exact hnodone k r
      · rw [Function.update_noteq hne]
        exact hj
      · intro k hk
        by_cases hki : k = i
        · rw [hki, Function.update_same] at hk
          exact absurd hk (by simp)
        · rw [Function.update_noteq hki] at hk
          exact hju k hk
    · exact ⟨htot, hflag, hstored, hnodone, j, hj, hju⟩
  | complete i o => exact Bool.noConfusion ha
  | observe i => exact Bool.noConfusion ha
  | retry401 i => exact Bool.noConfusion ha

/-- Helper: a run of enter events preserves the enter-phase invariant. -/
theorem sf_enter_run {n : ℕ} {s0 : Option String}
    (l : List (SingleFlight.Action n)) (hl : ∀ a ∈ l, a.isEnter = true)
    {s : SingleFlight.SFState n} (h : SingleFlight.EnterPhase s0 s) :
    SingleFlight.EnterPhase s0 (SingleFlight.run s l) := by
  induction l generalizing s with
  | nil => exact h
  | cons a l ih =>
    exact ih (fun b hb => hl b (List.mem_cons_of_mem a hb))
      (sf_enter_step h a (hl a (List.mem_cons_self a l)))

/-- Helper: the first enter event establishes the enter-phase invariant
from the scenario start. -/
theorem sf_enter_first {n : ℕ} (s0 : Option String) (i : Fin n) :
    SingleFlight.EnterPhase s0
      (SingleFlight.step (SingleFlight.initSF n s0) (SingleFlight.Action.enter i)) := by
  have hst : SingleFlight.step (SingleFlight.initSF n s0) (SingleFlight.Action.enter i)
      = { isRefreshing := true, stored := s0
          callers := Function.update (fun _ => SingleFlight.CallerPhase.got401) i
            SingleFlight.CallerPhase.owner
          inFlight := 1, total := 1 } := rfl
  rw [hst]
  refine ⟨rfl, rfl, rfl, ?_, i, by simp, ?_⟩
  · intro k r
    simp only [Function.update_apply]
    split <;> simp
  · intro k hk
    simp only [Function.update_apply] at hk
    by_cases hki : k = i
    · exact hki
    · rw [if_neg hki] at hk
      exact absurd hk (by simp)

/-- Helper: the enter-phase invariant implies the rest-phase invariant. -/
theorem sf_enter_to_rest {n : ℕ} {s0 : Option String} {s : SingleFlight.SFState n}
    (h : SingleFlight.EnterPhase s0 s) : SingleFlight.RestPhase s := by
  obtain ⟨htot, hflag, _, hnodone, j, hj, hju⟩ := h
  refine ⟨htot, fun _ => ⟨hnodone, j, hj, hju⟩, ?_⟩
  intro hf
  rw [hflag] at hf
  exact Bool.noConfusion hf

/-- Helper: an event that is neither an enter nor a retry-401 preserves
the no-retry rest-phase invariant. -/
theorem sf_rest_step {n : ℕ} {s : SingleFlight.SFState n}
    (h : SingleFlight.RestPhase s) (a : SingleFlight.Action n)
    (ha : a.isEnter = false) (hr : a.isRetry = false) :
    SingleFlight.RestPhase (SingleFlight.step s a) := by
  obtain ⟨htot, htrue, hfalse⟩ := h
  cases a with
  | enter i => exact Bool.noConfusion ha
  | retry401 i => exact Bool.noConfusion hr
  | complete i o =>
    simp only [SingleFlight.step]
    split
    · next hph =>
      cases hfl : s.isRefreshing with
      | false => exact absurd hph ((hfalse hfl).1 i)
      | true =>
        obtain ⟨hnodone, j, hj, hju⟩ := htrue hfl
        have hij : i = j := hju i hph
        simp only [SingleFlight.RestPhase]
        refine ⟨htot, ?_, ?_⟩
        · intro hf
          exact Bool.noConfusion hf
        · intro _
          constructor
          · intro k
            by_cases hki : k = i
            · rw [hki, Function.update_same]
              simp
            · rw [Function.update_noteq hki]
              intro hk
              exact hki (by rw [hju k hk, ← hij])
          · intro k r
            by_cases hki : k = i
            · rw [hki, Function.update_same]
              intro hk
              simpa using hk.symm
            · rw [Function.update_noteq hki]
              intro hk
              exact absurd hk (hnodone k r)
    · exact ⟨htot, htrue, hfalse⟩
  | observe i =>
    simp only [SingleFlight.step]
    split
    · next hcnd =>
      simp only [SingleFlight.RestPhase]
      refine ⟨htot, ?_, ?_⟩
      · intro hf
        rw [hcnd.2] at hf
        exact Bool.noConfusion hf
      · intro _
        constructor
        · intro k
          by_cases hki : k = i
          · rw [hki, Function.update_same]
            simp
          · rw [Function.update_noteq hki]
            exact (hfalse hcnd.2).1 k
        · intro k r
          by_cases hki : k = i
          · rw [hki, Function.update_same]
            intro hk
            simpa using hk.symm
          · rw [Function.update_noteq hki]
            exact (hfalse hcnd.2).2 k r
    · exact ⟨htot, htrue, hfalse⟩

/-- Helper: a run of events that are neither enters nor retry-401s
preserves the no-retry rest-phase invariant. -/
theorem sf_rest_run {n : ℕ} (l : List (SingleFlight.Action n))
    (hl : ∀ a ∈ l, a.isEnter = false) (hlr : ∀ a ∈ l, a.isRetry = false)
    {s : SingleFlight.SFState n} (h : SingleFlight.RestPhase s) :
    SingleFlight.RestPhase (SingleFlight.run s l) := by
  induction l generalizing s with
  | nil => exact h
  | cons a l ih =>
    exact ih (fun b hb => hl b (List.mem_cons_of_mem a hb))
      (fun b hb => hlr b (List.mem_cons_of_mem a hb))
      (sf_rest_step h a (hl a (List.mem_cons_self a l))
        (hlr a (List.mem_cons_self a l)))

/-- Helper: the enter-phase invariant implies the retry-tolerant
rest-phase invariant. -/
theorem sf_enter_to_restR {n : ℕ} {s0 : Option String} {s : SingleFlight.SFState n}
    (h : SingleFlight.EnterPhase s0 s) : SingleFlight.RestPhaseR s := by
  obtain ⟨htot, hflag, _, hnodone, j, hj, hju⟩ := h
  refine ⟨htot, fun _ => ⟨hnodone, j, hj, hju⟩, ?_⟩
  intro hf
  rw [hflag] at hf
  exact Bool.noConfusion hf

/-- Helper: every non-enter event, retry-401 events included, preserves
the retry-tolerant rest-phase invariant. -/
theorem sf_restR_step {n : ℕ} {s : SingleFlight.SFState n}
    (h : SingleFlight.RestPhaseR s) (a : SingleFlight.Action n)
    (ha : a.isEnter = false) :
    SingleFlight.RestPhaseR (SingleFlight.step s a) := by
  obtain ⟨htot, htrue, hfalse⟩ := h
  cases a with
  | enter i => exact Bool.noConfusion ha
  | complete i o =>
    simp only [SingleFlight.step]
    split
    · next hph =>
      cases hfl : s.isRefreshing with
      | false => exact absurd hph ((hfalse hfl).1 i)
      | true =>
        obtain ⟨hnodone, j, hj, hju⟩ := htrue hfl
        have hij : i = j := hju i hph
        simp only [SingleFlight.RestPhaseR]
        refine ⟨htot, ?_, ?_⟩
        · intro hf
          exact Bool.noConfusion hf
        · intro _
          constructor
          · intro k
            by_cases hki : k = i
            · rw [hki, Function.update_same]
              simp
            · rw [Function.update_noteq hki]
              intro hk
              exact hki (by rw [hju k hk, ← hij])
          · refine ⟨SingleFlight.ownerResult o, Or.inl rfl, ?_⟩
            intro k r
            by_cases hki : k = i
            · rw [hki, Function.update_same]
              intro hk
              exact Or.inl (by simpa using hk.symm)
            · rw [Function.update_noteq hki]
              intro hk
              exact absurd hk (hnodone k r)
    · exact ⟨htot, htrue, hfalse⟩
  | observe i =>
    simp only [SingleFlight.step]
    split
    · next hcnd =>
      obtain ⟨hnoown, v, hsv, hdone⟩ := hfalse hcnd.2
      simp only [SingleFlight.RestPhaseR]
      refine ⟨htot, ?_, ?_⟩
      · intro hf
        rw [hcnd.2] at hf
        exact Bool.noConfusion hf
      · intro _
        constructor
        · intro k
          by_cases hki : k = i
          · rw [hki, Function.update_same]
            simp
          · rw [Function.update_noteq hki]
            exact hnoown k
        · refine ⟨v, hsv, ?_⟩
          intro k r
          by_cases hki : k = i
          · rw [hki, Function.update_same]
            intro hk
            have hr : r = s.stored := by simpa using hk.symm
            rw [hr]
            exact hsv
          · rw [Function.update_noteq hki]
            exact hdone k r
    · exact ⟨htot, htrue, hfalse⟩
  | retry401 i =>
    simp only [SingleFlight.step]
    split
    · simp only [SingleFlight.RestPhaseR]
      refine ⟨htot, htrue, ?_⟩
      intro hf
      obtain ⟨hnoown, v, _, hdone⟩ := hfalse hf
      exact ⟨hnoown, v, Or.inr trivial, hdone⟩
    · exact ⟨htot, htrue, hfalse⟩

/-- Helper: a run of non-enter events, retry-401 events included,
preserves the retry-tolerant rest-phase invariant. -/
theorem sf_restR_run {n : ℕ} (l : List (SingleFlight.Action n))
    (hl : ∀ a ∈ l, a.isEnter = false) {s : SingleFlight.SFState n}
    (h : SingleFlight.RestPhaseR s) :
    SingleFlight.RestPhaseR (SingleFlight.run s l) := by
  induction l generalizing s with
  | nil => exact h
  | cons a l ih =>
    exact ih (fun b hb => hl b (List.mem_cons_of_mem a hb))
      (sf_restR_step h a (hl a (List.mem_cons_self a l)))

/-- C1 counterexample to the claim as stated, in two parts. First, the
fetchWithAuth of src/lib/api/qrClient.ts has no single-flight guard, so
when two concurrent callers both observe a 401 and their continuations
run one after the other, each issues its own refresh fetch: two refresh
calls are in flight at the same instant and two are issued in total.
Second, even the guarded part_004 variant does not make all callers
complete consistently: after the single refresh resolves a fresh token,
the owner retries its original request, and when that retry returns 401
the handler removes the stored accessToken (part_004 line 94) before the
waiting caller runs its next setTimeout poll, so the owner resolves the
fresh token while the waiter resolves null. -/
theorem c1_counterexample :
    ((V2Flight.run (V2Flight.initV2 2)
        [V2Flight.Action.enter 0, V2Flight.Action.enter 1]).inFlight = 2)
    ∧ ((V2Flight.run (V2Flight.initV2 2)
        [V2Flight.Action.enter 0, V2Flight.Action.enter 1]).total = 2)
    ∧ ((SingleFlight.run (SingleFlight.initSF 2 (some "old"))
        [SingleFlight.Action.enter 0, SingleFlight.Action.enter 1,
          SingleFlight.Action.complete 0 (QrClientLS.RefreshOutcome.token "new"),
          SingleFlight.Action.retry401 0,
          SingleFlight.Action.observe 1]).callers 0
      = SingleFlight.CallerPhase.done (some "new"))
    ∧ ((SingleFlight.run (SingleFlight.initSF 2 (some "old"))
        [SingleFlight.Action.enter 0, SingleFlight.Action.enter 1,
          SingleFlight.Action.complete 0 (QrClientLS.RefreshOutcome.token "new"),
          SingleFlight.Action.retry401 0,
          SingleFlight.Action.observe 1]).callers 1
      = SingleFlight.CallerPhase.done none) := by
  refine ⟨by decide, by decide, by decide, by decide⟩

/-- C1 amended: the part_004 fetchWithAuth with the isRefreshing guard
gives, first, at most one refresh network call in flight at any instant
under every interleaving; second, when the N concurrent 401 continuations
all run the head of refreshAuthToken before the in-flight refresh
resolves (the schedule is some enter events followed by no further
enters), exactly one refresh network call is issued in total; third, if
additionally no post-refresh retry of the original request comes back 401
during that window, every caller that resolves resolves with the same
value, the outcome of the single refresh; and fourth, in general there is
one value v, the outcome of the single refresh, such that every caller
that resolves resolves with v or with null, null occurring when its poll
runs after a retry-401 has removed the stored token. The
src/lib/api/qrClient.ts variant has no guard and issues one refresh call
per 401 caller. -/
theorem c1_single_flight (n : ℕ) (s0 : Option String)
    (es rest : List (SingleFlight.Action n))
    (h1 : ∀ a ∈ es, a.isEnter = true)
    (h2 : ∀ a ∈ rest, a.isEnter = false)
    (h3 : es ≠ []) :
    (∀ sched : List (SingleFlight.Action n),
      (SingleFlight.run (SingleFlight.initSF n s0) sched).inFlight ≤ 1)
    ∧ (SingleFlight.run (SingleFlight.initSF n s0) (es ++ rest)).total = 1
    ∧ ((∀ a ∈ rest, a.isRetry = false) →
        ∀ (i j : Fin n) (ri rj : Option String),
        (SingleFlight.run (SingleFlight.initSF n s0) (es ++ rest)).callers i
          = SingleFlight.CallerPhase.done ri →
        (SingleFlight.run (SingleFlight.initSF n s0) (es ++ rest)).callers j
          = SingleFlight.CallerPhase.done rj →
        ri = rj)
    ∧ (∃ v : Option String, ∀ (i : Fin n) (ri : Option String),
        (SingleFlight.run (SingleFlight.initSF n s0) (es ++ rest)).callers i
          = SingleFlight.CallerPhase.done ri →
        ri = v ∨ ri = none) := by
  obtain ⟨a, es2, rfl⟩ : ∃ a es2, es = a :: es2 := by
    cases es with
    | nil => exact absurd rfl h3
    | cons a es2 => exact ⟨a, es2, rfl⟩
  obtain ⟨i0, rfl⟩ : ∃ i0, a = SingleFlight.Action.enter i0 := by
    cases a with
    | enter i => exact ⟨i, rfl⟩
    | complete i o => exact Bool.noConfusion (h1 _ (List.mem_cons_self _ _))
    | observe i => exact Bool.noConfusion (h1 _ (List.mem_cons_self _ _))
    | retry401 i => exact Bool.noConfusion (h1 _ (List.mem_cons_self _ _))
  have he2 : SingleFlight.EnterPhase s0
      (SingleFlight.run (SingleFlight.initSF n s0)
        (SingleFlight.Action.enter i0 :: es2)) := by
    have hstep1 := sf_enter_first s0 i0
    exact sf_enter_run es2
      (fun b hb => h1 b (List.mem_cons_of_mem _ hb)) hstep1
  have hR : SingleFlight.RestPhaseR
      (SingleFlight.run (SingleFlight.initSF n s0)
        ((SingleFlight.Action.enter i0 :: es2) ++ rest)) := by
    rw [sf_run_append]
    exact sf_restR_run rest h2 (sf_enter_to_restR he2)
  refine ⟨?_, hR.1, ?_, ?_⟩
  · intro sched
    have hinv := sf_run_inv s0 sched
    rw [hinv.1]
    cases (SingleFlight.run (SingleFlight.initSF n s0) sched).isRefreshing <;> simp
  · intro hnr i j ri rj hdi hdj
    have hrest : SingleFlight.RestPhase
        (SingleFlight.run (SingleFlight.initSF n s0)
          ((SingleFlight.Action.enter i0 :: es2) ++ rest)) := by
      rw [sf_run_append]
      exact sf_rest_run rest h2 hnr (sf_enter_to_rest he2)
    cases hfl : (SingleFlight.run (SingleFlight.initSF n s0)
        ((SingleFlight.Action.enter i0 :: es2) ++ rest)).isRefreshing with
    | true => exact absurd hdi ((hrest.2.1 hfl).1 i ri)
    | false =>
      rw [(hrest.2.2 hfl).2 i ri hdi, (hrest.2.2 hfl).2 j rj hdj]
  · cases hfl : (SingleFlight.run (SingleFlight.initSF n s0)
        ((SingleFlight.Action.enter i0 :: es2) ++ rest)).isRefreshing with
    | true =>
      exact ⟨none, fun i ri hdi => absurd hdi ((hR.2.1 hfl).1 i ri)⟩
    | false =>
      obtain ⟨hnoown, v, hsv, hdone⟩ := hR.2.2 hfl
      exact ⟨v, hdone⟩

/-- C1 witness: two concurrent 401 callers, both entering refreshAuthToken
before the refresh resolves with a fresh token, and a schedule without a
retry-401 event; one refresh call is issued, the in-flight count never
exceeds one, and both callers resolve with the fresh token. -/
theorem c1_single_flight_witness :
    ((SingleFlight.run (SingleFlight.initSF 2 (some "old"))
        ([SingleFlight.Action.enter 0, SingleFlight.Action.enter 1] ++
          [SingleFlight.Action.complete 0 (QrClientLS.RefreshOutcome.token "new"),
            SingleFlight.Action.observe 1])).inFlight ≤ 1)
    ∧ ((SingleFlight.run (SingleFlight.initSF 2 (some "old"))
        ([SingleFlight.Action.enter 0, SingleFlight.Action.enter 1] ++
          [SingleFlight.Action.complete 0 (QrClientLS.RefreshOutcome.token "new"),
            SingleFlight.Action.observe 1])).total = 1)
    ∧ (some "new" : Option String) = some "new" :=
  have h := c1_single_flight 2 (some "old")
    [SingleFlight.Action.enter 0, SingleFlight.Action.enter 1]
    [SingleFlight.Action.complete 0 (QrClientLS.RefreshOutcome.token "new"),
      SingleFlight.Action.observe 1]
    (by decide) (by decide) (by simp)
  ⟨h.1 _, h.2.1,
    h.2.2.1 (by decide) 0 1 (some "new") (some "new") (by decide) (by decide)⟩

/-- C10 witness: an accepted generic scan prepended to an empty list, and
a rejected scan result leaving a one-element list unchanged. -/
theorem c10_recent_scans_bound_witness :
    ((ScanPage.handleValidate "c"
        ⟨some ⟨true, "generic"⟩,
          some ⟨"id1", "c", "p", false, true, "t0", none, none, "me"⟩⟩ []).1
      = ((⟨"id1", "c", "p", false, true, "t0", none, none, "me"⟩
          : ScanPage.HumanReadableScan) :: []).take 20
      ∧ (ScanPage.handleValidate "c"
          ⟨some ⟨true, "generic"⟩,
            some ⟨"id1", "c", "p", false, true, "t0", none, none, "me"⟩⟩ []).1.length ≤ 20
      ∧ (ScanPage.handleValidate "c"
          ⟨some ⟨true, "generic"⟩,
            some ⟨"id1", "c", "p", false, true, "t0", none, none, "me"⟩⟩ []).1.head?
        = some ⟨"id1", "c", "p", false, true, "t0", none, none, "me"⟩)
    ∧ ((ScanPage.handleValidate "c" (⟨none, none⟩ : ScanPage.ScanData)
        [⟨"id1", "c", "p", false, true, "t0", none, none, "me"⟩]).1
      = [⟨"id1", "c", "p", false, true, "t0", none, none, "me"⟩]) :=
  ⟨(c10_recent_scans_bound "c"
      ⟨some ⟨true, "generic"⟩,
        some ⟨"id1", "c", "p", false, true, "t0", none, none, "me"⟩⟩ []).1
      ⟨"id1", "c", "p", false, true, "t0", none, none, "me"⟩ (by decide),
   (c10_recent_scans_bound "c" (⟨none, none⟩ : ScanPage.ScanData)
      [⟨"id1", "c", "p", false, true, "t0", none, none, "me"⟩]).2.1 (by decide)⟩
